import Mathlib

/-!
Verification development for the med-spa appointment backend
(`server.py` FastMCP tools and `api_server.py` HTTP endpoints).

Embedding conventions:
* a Python `dict[str, record]` (insertion-ordered, as loaded from a JSON
  store file) is an association list `Store α := List (String × α)`;
  `d[k] = v` assignment is `setA` (replace in place, else append),
  `k in d` is `hasKey`, `d[k]` read is `lookupA`, `d.values()` is `valuesS`,
  `len(d)` is `List.length`;
* an `"HH:MM"` clock string is its minutes-since-midnight value (a `Nat`);
  `datetime.strptime(s, "%H:%M")` comparison and `timedelta` addition on the
  same day coincide with `Nat` comparison and addition;
* monetary amounts (service prices, client `total_spent`) are whole-dollar
  `Nat`s — every price in the catalog is an exact whole-dollar float, so
  float addition on them is exact;
* `datetime.now().isoformat()` is an explicit `now : String` argument;
* `raise HTTPException(status, detail)` in an endpoint is the `.error`
  side of an `Except HttpError _` result.
-/

namespace MedSpa

/-! ## Entity Store: Python dicts as insertion-ordered association lists -/

abbrev Store (α : Type) := List (String × α)

/-- Dict read `d[k]` / `d.get(k)`: first entry with the given key. -/
def lookupA {α : Type} : Store α → String → Option α
  | [], _ => none
  | (k', v) :: rest, k => if k' = k then some v else lookupA rest k

/-- Dict membership `k in d`. -/
def hasKey {α : Type} (s : Store α) (k : String) : Bool :=
  (lookupA s k).isSome

/-- Dict assignment `d[k] = v`: replaces in place if the key exists,
appends otherwise (Python dicts keep the original position on update). -/
def setA {α : Type} : Store α → String → α → Store α
  | [], k, v => [(k, v)]
  | (k', v') :: rest, k, v =>
    if k' = k then (k, v) :: rest else (k', v') :: setA rest k v

/-- Dict `d.values()` in insertion order. -/
def valuesS {α : Type} (s : Store α) : List α := s.map Prod.snd

/-! ## Strings and clock arithmetic -/

/-- Lowercase a character list (embeds Python `str.lower()` on ASCII text). -/
def lowerL (l : List Char) : List Char := l.map Char.toLower

/-- Uppercase (embeds Python `str.upper()` on ASCII text). -/
def upperL (s : String) : String := String.mk (s.data.map Char.toUpper)

/-- `needle` occurs at the start of `hay`. -/
def startsL : List Char → List Char → Bool
  | [], _ => true
  | _ :: _, [] => false
  | a :: as, b :: bs => a == b && startsL as bs

/-- Python's substring test `needle in hay` on character lists. -/
def substrOf (needle : List Char) : List Char → Bool
  | [] => startsL needle []
  | c :: t => startsL needle (c :: t) || substrOf needle t

/-- Two-digit zero-padded rendering (`f"{n:02d}"` for `n < 100`). -/
def fmt2 (n : Nat) : String :=
  if n < 10 then "0" ++ toString n else toString n

/-- Render minutes-since-midnight as `"HH:MM"` (`strftime("%H:%M")`). -/
def fmtHM (t : Nat) : String := fmt2 (t / 60) ++ ":" ++ fmt2 (t % 60)

/-- Four-digit zero-padded rendering (`f"{n:04d}"`). -/
def pad4 (n : Nat) : String :=
  let s := toString n
  String.mk (List.replicate (4 - s.length) '0') ++ s

/-- Whole-dollar price rendered as `f"{p:.2f}"`. -/
def fmtMoney (p : Nat) : String := toString p ++ ".00"

/-- `c * n` string repetition. -/
def repChar (c : Char) (n : Nat) : String := String.mk (List.replicate n c)

/-! ## Calendar dates: `datetime.strptime(date, "%Y-%m-%d")` -/

/-- Split a character list on `'-'` (like `re`-level tokenisation of the
`"%Y-%m-%d"` pattern: the literal dashes separate the three fields). -/
def splitDash : List Char → List (List Char)
  | [] => [[]]
  | c :: cs =>
    let r := splitDash cs
    if c = '-' then [] :: r
    else
      match r with
      | h :: t => (c :: h) :: t
      | [] => [[c]]

/-- Decimal digits to a number (`int(...)` on a digit string). -/
def digitsToNat (l : List Char) : Nat :=
  l.foldl (fun a c => 10 * a + (c.toNat - 48)) 0

/-- Gregorian leap year, as used by `datetime`. -/
def isLeap (y : Nat) : Bool :=
  y % 4 = 0 && (y % 100 ≠ 0 || y % 400 = 0)

/-- Length of a month, as validated by the `datetime` constructor. -/
def daysInMonth (y m : Nat) : Nat :=
  if m = 2 then (if isLeap y then 29 else 28)
  else if m = 4 ∨ m = 6 ∨ m = 9 ∨ m = 11 then 30
  else 31

/-- `datetime.strptime(s, "%Y-%m-%d")`: exactly three dash-separated
fields, a four-digit year, a one/two-digit month in 1..12, a one/two-digit
day in 1..31 that exists in the month, year at least 1 (the `datetime`
range check); any other input raises `ValueError`, i.e. returns `none`. -/
def parseDate (s : String) : Option (Nat × Nat × Nat) :=
  match splitDash s.data with
  | [ys, ms, ds] =>
    if ys.length = 4 && ys.all Char.isDigit
        && 1 ≤ ms.length && ms.length ≤ 2 && ms.all Char.isDigit
        && 1 ≤ ds.length && ds.length ≤ 2 && ds.all Char.isDigit then
      let y := digitsToNat ys
      let m := digitsToNat ms
      let d := digitsToNat ds
      if 1 ≤ y && 1 ≤ m && m ≤ 12 && 1 ≤ d && d ≤ daysInMonth y m then
        some (y, m, d)
      else none
    else none
  | _ => none

/-- Days in the months before month `m` of year `y`. -/
def daysBeforeMonth (y m : Nat) : Nat :=
  ((List.range (m - 1)).map (fun i => daysInMonth y (i + 1))).sum

/-- Proleptic-Gregorian ordinal of a date (`date.toordinal()`:
0001-01-01 is ordinal 1, a Monday). -/
def toOrdinal (y m d : Nat) : Nat :=
  365 * (y - 1) + (y - 1) / 4 - (y - 1) / 100 + (y - 1) / 400
    + daysBeforeMonth y m + d

/-- English weekday names, Monday first (`strftime("%A")` domain). -/
def dayNames : List String :=
  ["Monday", "Tuesday", "Wednesday", "Thursday", "Friday", "Saturday", "Sunday"]

/-- `date_obj.strftime("%A")`. -/
def dayName (d : Nat × Nat × Nat) : String :=
  dayNames.getD ((toOrdinal d.1 d.2.1 d.2.2 - 1) % 7) ""

/-! ## Data model -/

structure Service where
  id : String
  name : String
  category : String
  duration_minutes : Nat
  price : Nat
  description : String
  deriving DecidableEq, Repr

structure StaffMember where
  id : String
  name : String
  role : String
  specialties : List String
  available_days : List String
  hoursStart : Nat
  hoursEnd : Nat
  deriving DecidableEq, Repr

structure Client where
  id : String
  name : String
  email : String
  phone : String
  date_of_birth : String
  address : String
  emergency_contact : String
  medical_notes : String
  created_at : String
  total_visits : Nat
  total_spent : Nat
  deriving DecidableEq, Repr

structure Appointment where
  id : String
  client_id : String
  client_name : String
  service_id : String
  service_name : String
  staff_id : String
  staff_name : String
  date : String
  time : Nat
  duration_minutes : Nat
  price : Nat
  status : String
  notes : String
  created_at : String
  updated_at : Option String
  deriving DecidableEq, Repr

/-! ## Seed catalog (`initialize_default_data`) -/

def seedServices : Store Service :=
  [("SVC001", ⟨"SVC001", "Botox Treatment", "Injectables", 30, 400,
      "Wrinkle reduction with Botox injections"⟩),
   ("SVC002", ⟨"SVC002", "Dermal Fillers", "Injectables", 45, 650,
      "Volume restoration with hyaluronic acid fillers"⟩),
   ("SVC003", ⟨"SVC003", "Hydrafacial", "Facials", 60, 250,
      "Deep cleansing and hydration facial treatment"⟩),
   ("SVC004", ⟨"SVC004", "Laser Hair Removal", "Laser Treatments", 30, 300,
      "Permanent hair reduction using laser technology"⟩),
   ("SVC005", ⟨"SVC005", "Chemical Peel", "Skin Treatments", 45, 200,
      "Skin resurfacing treatment for improved texture and tone"⟩),
   ("SVC006", ⟨"SVC006", "Microneedling", "Skin Treatments", 60, 350,
      "Collagen induction therapy for skin rejuvenation"⟩),
   ("SVC007", ⟨"SVC007", "CoolSculpting", "Body Contouring", 90, 800,
      "Non-invasive fat reduction treatment"⟩)]

def stf001 : StaffMember :=
  ⟨"STF001", "Dr. Maria Rodriguez", "Medical Director",
   ["Injectables", "Laser Treatments"],
   ["Monday", "Tuesday", "Wednesday", "Thursday", "Friday"], 540, 1020⟩

def stf002 : StaffMember :=
  ⟨"STF002", "Sarah Johnson", "Licensed Aesthetician",
   ["Facials", "Skin Treatments"],
   ["Tuesday", "Wednesday", "Thursday", "Friday", "Saturday"], 600, 1080⟩

def stf003 : StaffMember :=
  ⟨"STF003", "Jennifer Martinez", "Nurse Practitioner",
   ["Injectables", "Body Contouring"],
   ["Monday", "Wednesday", "Friday", "Saturday"], 540, 1020⟩

def seedStaff : Store StaffMember :=
  [("STF001", stf001), ("STF002", stf002), ("STF003", stf003)]

/-! ## Availability engine (`api_server.py`, `check_availability`) -/

structure Slot where
  time : Nat
  staff_id : String
  staff_name : String
  deriving DecidableEq, Repr

structure HttpError where
  status : Nat
  detail : String
  deriving DecidableEq, Repr

structure AvailabilityResult where
  date : String
  day_of_week : String
  available_slots : List Slot
  deriving DecidableEq, Repr

/-- One step of the `while current_time < end_time` loop body, with an
explicit fuel bound on the iteration count (each step advances the clock
by 30 minutes, so `endT - cur` steps always suffice). -/
def slotTimesGo : Nat → Nat → Nat → List Nat
  | 0, _, _ => []
  | fuel + 1, cur, endT =>
    if cur < endT then cur :: slotTimesGo fuel (cur + 30) endT else []

/-- The candidate start times of the `while current_time < end_time` loop:
`cur, cur + 30, ...`, stopping strictly before `endT`. -/
def slotTimes (cur endT : Nat) : List Nat := slotTimesGo (endT - cur) cur endT

/-- The staff member's appointments consulted by the overlap test:
same staff, same date, status `scheduled`. -/
def staffAptsFor (appointments : Store Appointment) (sid date : String) :
    List Appointment :=
  (valuesS appointments).filter
    (fun a => a.staff_id == sid && a.date == date && a.status == "scheduled")

/-- The per-slot check: available unless the start instant falls within
`[apt.time, apt.time + apt.duration_minutes)` of some existing appointment. -/
def slotFree (staffApts : List Appointment) (t : Nat) : Bool :=
  staffApts.all
    (fun apt => !(decide (apt.time ≤ t ∧ t < apt.time + apt.duration_minutes)))

/-- The slots one staff member contributes: every 30-minute step of the
working window whose start instant is free. -/
def slotsForStaff (appointments : Store Appointment) (date : String)
    (sid : String) (m : StaffMember) : List Slot :=
  let staffApts := staffAptsFor appointments sid date
  ((slotTimes m.hoursStart m.hoursEnd).filter (slotFree staffApts)).map
    (fun t => ⟨t, sid, m.name⟩)

/-- The `for staff_id, staff_member in available_staff.items()` loop. -/
def genSlots (appointments : Store Appointment) (date : String) :
    Store StaffMember → List Slot
  | [] => []
  | (sid, m) :: rest =>
    slotsForStaff appointments date sid m ++ genSlots appointments date rest

/-- `GET /availability/{date}` (`api_server.check_availability`).
The `duration` the source computes from `service_id` is never used by the
slot loop, so the parameter does not influence the result.  An invalid date
raises `HTTPException(400)`, encoded as the `.error` side. -/
def checkAvailability (staff : Store StaffMember)
    (appointments : Store Appointment) (date : String) :
    Except HttpError AvailabilityResult :=
  match parseDate date with
  | none => .error ⟨400, "Invalid date format. Use YYYY-MM-DD"⟩
  | some d =>
    let day_name := dayName d
    let available_staff :=
      staff.filter (fun p => p.2.available_days.contains day_name)
    .ok ⟨date, day_name, (genSlots appointments date available_staff).take 10⟩

/-! ## Availability tool (`server.py`, `check_availability`) -/

/-- Stable insertion into a time-sorted list (goes after every element
with a smaller-or-equal key). -/
def insertByTime (l : List Appointment) (a : Appointment) : List Appointment :=
  match l with
  | [] => [a]
  | b :: bs => if b.time ≤ a.time then b :: insertByTime bs a else a :: b :: bs

/-- Python's stable `sorted(..., key=lambda x: x["time"])`. -/
def sortByTime (l : List Appointment) : List Appointment :=
  l.foldl insertByTime []

/-- One formatted line per scheduled appointment. -/
def mcpAptLines (staffApts : List Appointment) : String :=
  (sortByTime staffApts).foldl
    (fun acc apt =>
      acc ++ "  " ++ fmtHM apt.time ++ " - "
        ++ fmtHM ((apt.time + apt.duration_minutes) % 1440) ++ ": "
        ++ apt.service_name ++ " (" ++ apt.client_name ++ ")\n")
    ""

/-- The per-staff block of the availability report. -/
def mcpStaffBlock (appointments : Store Appointment) (date : String)
    (sid : String) (member : StaffMember) : String :=
  let staffApts := staffAptsFor appointments sid date
  member.name ++ " (" ++ member.role ++ ")\n"
    ++ "Working hours: " ++ fmtHM member.hoursStart ++ " - "
    ++ fmtHM member.hoursEnd ++ "\n"
    ++ (if staffApts.length ≠ 0 then
          "Scheduled appointments (" ++ toString staffApts.length ++ "):\n"
            ++ mcpAptLines staffApts
        else "No appointments scheduled - fully available\n")
    ++ "\n"

/-- The agent-tool `check_availability(date, staff_id)`: a formatted text
report; every failure is returned as an error string, never raised. -/
def mcpCheckAvailability (appointments : Store Appointment)
    (staff : Store StaffMember) (date : String) (staff_id : Option String) :
    String :=
  match parseDate date with
  | none => "Error: Invalid date format. Use YYYY-MM-DD"
  | some d =>
    let day_name := dayName d
    let available_staff :=
      staff.filter (fun p => p.2.available_days.contains day_name)
    -- `if staff_id:` — both None and "" are falsy
    let sidf := staff_id.getD ""
    if sidf ≠ "" then
      match lookupA available_staff sidf with
      | none =>
        "Error: Staff member " ++ sidf ++ " is not available on "
          ++ day_name ++ "s"
      | some member =>
        "AVAILABILITY FOR " ++ date ++ " (" ++ day_name ++ ")\n"
          ++ repChar '=' 60 ++ "\n\n"
          ++ mcpStaffBlock appointments date sidf member
    else if available_staff.isEmpty then
      "No staff members available on " ++ day_name ++ "s"
    else
      "AVAILABILITY FOR " ++ date ++ " (" ++ day_name ++ ")\n"
        ++ repChar '=' 60 ++ "\n\n"
        ++ available_staff.foldl
            (fun acc p => acc ++ mcpStaffBlock appointments date p.1 p.2) ""

/-! ## Booking orchestrator (`api_server.py`, `book_appointment`) -/

structure BookingRequest where
  service_name : String
  date : String
  time : Nat
  client_name : String
  client_phone : String
  client_email : String
  staff_id : Option String
  deriving DecidableEq, Repr

structure ConfirmationDetails where
  appointment_id : String
  service : String
  date : String
  time : Nat
  provider : String
  price : Nat
  duration : Nat
  client_name : String
  client_phone : String
  deriving DecidableEq, Repr

structure BookingResponse where
  success : Bool
  appointment_id : Option String
  message : String
  confirmation_details : Option ConfirmationDetails
  deriving DecidableEq, Repr

/-- Service resolution: the first catalog entry whose name contains the
requested name as a case-insensitive substring. -/
def findService (services : Store Service) (qname : String) :
    Option (String × Service) :=
  services.find? (fun p => substrOf (lowerL qname.data) (lowerL p.2.name.data))

/-- Client resolution by exact phone equality; `""` plays Python's falsy
`None` (`client_id` stays unset when no client matches). -/
def findClientId (clients : Store Client) (phone : String) : String :=
  match clients.find? (fun p => p.2.phone == phone) with
  | some p => p.1
  | none => ""

/-- Staff resolution (`# Determine staff`): an explicitly supplied truthy
staff id wins; otherwise the first staff member whose specialties contain
the service's category; `""` again plays the falsy `None`. -/
def resolveStaffId (staff : Store StaffMember) (category : String)
    (req_staff_id : Option String) : String :=
  let s1 := req_staff_id.getD ""
  if s1 = "" then
    match staff.find? (fun p => p.2.specialties.contains category) with
    | some p => p.1
    | none => ""
  else s1

/-- The synthesized record for a first-time caller. -/
def newClient (cid : String) (req : BookingRequest) (now : String) : Client :=
  ⟨cid, req.client_name, req.client_email, req.client_phone,
   "", "", "", "", now, 0, 0⟩

/-- `POST /book` (`api_server.book_appointment`).  Returns the response
together with the persisted clients and appointments stores; the body's
`try/except` makes the operation total, so every error path is a
`success = false` response.  Note the mid-function `save_data(CLIENTS_FILE)`:
a newly created client is persisted before staff resolution. -/
def bookAppointment (clients : Store Client) (services : Store Service)
    (staff : Store StaffMember) (appointments : Store Appointment)
    (req : BookingRequest) (now : String) :
    BookingResponse × Store Client × Store Appointment :=
  match findService services req.service_name with
  | none =>
    (⟨false, none, "Service '" ++ req.service_name ++ "' not found", none⟩,
     clients, appointments)
  | some (service_id, service) =>
    let cif := findClientId clients req.client_phone
    let client_id :=
      if cif = "" then "CL" ++ pad4 (clients.length + 1) else cif
    let clients1 :=
      if cif = "" then setA clients client_id (newClient client_id req now)
      else clients
    let s2 := resolveStaffId staff service.category req.staff_id
    if s2 = "" || !hasKey staff s2 then
      (⟨false, none, "No staff available for this service", none⟩,
       clients1, appointments)
    else
      match lookupA clients1 client_id, lookupA staff s2 with
      | some cl, some st =>
        let apt_id := "APT" ++ pad4 (appointments.length + 1)
        let apt : Appointment :=
          ⟨apt_id, client_id, cl.name, service_id, service.name, s2, st.name,
           req.date, req.time, service.duration_minutes, service.price,
           "scheduled", "Booked via voice AI", now, none⟩
        let appointments2 := setA appointments apt_id apt
        let clients2 :=
          match lookupA clients1 client_id with
          | some c =>
            setA clients1 client_id
              { c with total_visits := c.total_visits + 1,
                       total_spent := c.total_spent + service.price }
          | none => clients1
        (⟨true, some apt_id,
          "Appointment booked successfully for " ++ req.client_name,
          some ⟨apt_id, service.name, req.date, req.time, st.name,
                service.price, service.duration_minutes, req.client_name,
                req.client_phone⟩⟩,
         clients2, appointments2)
      | _, _ =>
        -- unreachable: a missing key would raise KeyError, caught by the
        -- handler as a failure result with the stores saved so far
        (⟨false, none, "Error booking appointment: KeyError", none⟩,
         clients1, appointments)

/-! ## Appointment creation tool (`server.py`, `create_appointment`) -/

/-- The agent-tool `create_appointment`: validates that the client, service
and staff ids exist, then inserts the appointment with no availability or
overlap check of any kind.  Returns the message and the persisted
appointments store. -/
def createAppointment (appointments : Store Appointment)
    (clients : Store Client) (services : Store Service)
    (staff : Store StaffMember) (client_id service_id staff_id date : String)
    (time : Nat) (notes : String) (now : String) :
    String × Store Appointment :=
  match lookupA clients client_id with
  | none => ("Error: Client " ++ client_id ++ " not found", appointments)
  | some cl =>
    match lookupA services service_id with
    | none => ("Error: Service " ++ service_id ++ " not found", appointments)
    | some svc =>
      match lookupA staff staff_id with
      | none =>
        ("Error: Staff member " ++ staff_id ++ " not found", appointments)
      | some st =>
        let apt_id := "APT" ++ pad4 (appointments.length + 1)
        let apt : Appointment :=
          ⟨apt_id, client_id, cl.name, service_id, svc.name, staff_id,
           st.name, date, time, svc.duration_minutes, svc.price,
           "scheduled", notes, now, none⟩
        ("✓ Appointment created successfully!\n\nID: " ++ apt_id
           ++ "\nClient: " ++ cl.name ++ "\nService: " ++ svc.name
           ++ "\nProvider: " ++ st.name ++ "\nDate: " ++ date ++ " at "
           ++ fmtHM time ++ "\nDuration: " ++ toString svc.duration_minutes
           ++ " minutes\nPrice: $" ++ fmtMoney svc.price,
         setA appointments apt_id apt)

/-! ## Status transitions (`server.py`, `update_appointment_status`) -/

def validStatuses : List String :=
  ["scheduled", "completed", "cancelled", "no-show"]

/-- The agent-tool `update_appointment_status`: not-found and
invalid-status both return an error message with the store untouched;
success rewrites status (and notes when truthy) and stamps `updated_at`. -/
def updateAppointmentStatus (appointments : Store Appointment)
    (appointment_id status notes now : String) :
    String × Store Appointment :=
  match lookupA appointments appointment_id with
  | none =>
    ("Error: Appointment " ++ appointment_id ++ " not found", appointments)
  | some apt =>
    if !(validStatuses.contains status) then
      ("Error: Invalid status. Must be one of: scheduled, completed, cancelled, no-show",
       appointments)
    else
      let apt1 := { apt with status := status }
      let apt2 := if notes ≠ "" then { apt1 with notes := notes } else apt1
      let apt3 := { apt2 with updated_at := some now }
      ("✓ Appointment " ++ appointment_id ++ " status updated to: "
         ++ upperL status,
       setA appointments appointment_id apt3)

/-! ## Concrete scenarios used by the claims -/

/-- A scheduled Hydrafacial for STF002 on Tuesday 2026-10-13 at 10:00,
lasting 60 minutes (the §8 concrete scenario). -/
def c2Apt : Appointment :=
  ⟨"APT0001", "CL0001", "Ana Diaz", "SVC003", "Hydrafacial", "STF002",
   "Sarah Johnson", "2026-10-13", 600, 60, 250, "scheduled", "", "t0", none⟩

/-- STF002's slot list for that Tuesday (the lines 168–203 loop body of
`api_server.check_availability` applied to STF002). -/
def c2Slots : List Slot :=
  slotsForStaff [("APT0001", c2Apt)] "2026-10-13" "STF002" stf002

/-- First booking: Hydrafacial, Tuesday 2026-10-13, 10:00, fresh caller. -/
def c1Run1 : BookingResponse × Store Client × Store Appointment :=
  bookAppointment [] seedServices seedStaff []
    ⟨"Hydrafacial", "2026-10-13", 600, "Ana", "555-0001", "", none⟩ "t1"

/-- Second booking: same staff member and date, 10:30 — inside the first
appointment's [10:00, 11:00) interval. -/
def c1Run2 : BookingResponse × Store Client × Store Appointment :=
  bookAppointment c1Run1.2.1 seedServices seedStaff c1Run1.2.2
    ⟨"Hydrafacial", "2026-10-13", 630, "Bea", "555-0002", "", none⟩ "t2"

/-- A booking that explicitly names STF001, whose specialties do not
contain the Hydrafacial category "Facials". -/
def c9Run : BookingResponse × Store Client × Store Appointment :=
  bookAppointment [] seedServices seedStaff []
    ⟨"Hydrafacial", "2026-10-13", 600, "Ana", "555-0001", "", some "STF001"⟩
    "t1"

/-- A demo store with a single appointment, for witnesses. -/
def demoApts : Store Appointment := [("APT0001", c2Apt)]

/-- A demo client on file, for witnesses. -/
def demoClient : Client :=
  ⟨"CL0001", "Ana Diaz", "ana@example.com", "555-0001", "", "", "", "",
   "t0", 2, 500⟩

def demoClients : Store Client := [("CL0001", demoClient)]

/-- The concrete value of `checkAvailability seedStaff demoApts
"2026-10-13"`: Tuesday admits STF001 and STF002; STF001's sixteen free
slots come first, and the cap keeps the first ten. -/
def c3r : AvailabilityResult :=
  ⟨"2026-10-13", "Tuesday",
   [⟨540, "STF001", "Dr. Maria Rodriguez"⟩,
    ⟨570, "STF001", "Dr. Maria Rodriguez"⟩,
    ⟨600, "STF001", "Dr. Maria Rodriguez"⟩,
    ⟨630, "STF001", "Dr. Maria Rodriguez"⟩,
    ⟨660, "STF001", "Dr. Maria Rodriguez"⟩,
    ⟨690, "STF001", "Dr. Maria Rodriguez"⟩,
    ⟨720, "STF001", "Dr. Maria Rodriguez"⟩,
    ⟨750, "STF001", "Dr. Maria Rodriguez"⟩,
    ⟨780, "STF001", "Dr. Maria Rodriguez"⟩,
    ⟨810, "STF001", "Dr. Maria Rodriguez"⟩]⟩

/-- The concrete value of `checkAvailability [("STF002", stf002)] demoApts
"2026-10-13"`: of STF002's sixteen candidate times, 10:00 and 10:30 are
occupied by the 10:00 appointment; the cap keeps the first ten of the
remaining fourteen. -/
def c4r : AvailabilityResult :=
  ⟨"2026-10-13", "Tuesday",
   [⟨660, "STF002", "Sarah Johnson"⟩,
    ⟨690, "STF002", "Sarah Johnson"⟩,
    ⟨720, "STF002", "Sarah Johnson"⟩,
    ⟨750, "STF002", "Sarah Johnson"⟩,
    ⟨780, "STF002", "Sarah Johnson"⟩,
    ⟨810, "STF002", "Sarah Johnson"⟩,
    ⟨840, "STF002", "Sarah Johnson"⟩,
    ⟨870, "STF002", "Sarah Johnson"⟩,
    ⟨900, "STF002", "Sarah Johnson"⟩,
    ⟨930, "STF002", "Sarah Johnson"⟩]⟩

/-! ## Helper lemmas about the store -/

theorem lookupA_setA_self {α : Type} (l : Store α) (k : String) (v : α) :
    lookupA (setA l k v) k = some v := by
  induction l with
  | nil => simp [setA, lookupA]
  | cons hd tl ih =>
    obtain ⟨k', v'⟩ := hd
    by_cases h : k' = k
    · simp [setA, h, lookupA]
    · simp [setA, h, lookupA, ih]

theorem setA_setA {α : Type} (l : Store α) (k : String) (v w : α) :
    setA (setA l k v) k w = setA l k w := by
  induction l with
  | nil => simp [setA]
  | cons hd tl ih =>
    obtain ⟨k', v'⟩ := hd
    by_cases h : k' = k
    · simp [setA, h]
    · simp [setA, h, ih]

theorem setA_fresh {α : Type} (l : Store α) (k : String) (v : α)
    (h : hasKey l k = false) : setA l k v = l ++ [(k, v)] := by
  induction l with
  | nil => simp [setA]
  | cons hd tl ih =>
    obtain ⟨k', v'⟩ := hd
    simp only [hasKey, lookupA] at h
    by_cases hk : k' = k
    · simp [hk] at h
    · simp only [setA, if_neg hk, List.cons_append, List.cons.injEq, true_and]
      exact ih (by simpa [hasKey, hk] using h)

theorem hasKey_of_mem {α : Type} {l : Store α} {k : String} {v : α}
    (h : (k, v) ∈ l) : hasKey l k = true := by
  induction l with
  | nil => cases h
  | cons hd tl ih =>
    obtain ⟨k', v'⟩ := hd
    rcases List.mem_cons.mp h with heq | hmem
    · cases heq; simp [hasKey, lookupA]
    · by_cases hk : k' = k
      · simp [hasKey, lookupA, hk]
      · simpa [hasKey, lookupA, hk] using ih hmem

theorem lookupA_eq_of_mem_nodup {α : Type} {l : Store α} {k : String} {v : α}
    (hnd : (l.map Prod.fst).Nodup) (h : (k, v) ∈ l) :
    lookupA l k = some v := by
  induction l with
  | nil => cases h
  | cons hd tl ih =>
    obtain ⟨k', v'⟩ := hd
    simp only [List.map_cons, List.nodup_cons] at hnd
    rcases List.mem_cons.mp h with heq | hmem
    · cases heq; simp [lookupA]
    · have hne : k' ≠ k := by
        intro hkk
        exact hnd.1 (hkk ▸ (List.mem_map_of_mem Prod.fst hmem))
      simpa [lookupA, hne] using ih hnd.2 hmem

theorem setA_length_of_hasKey {α : Type} (l : Store α) (k : String) (v : α)
    (h : hasKey l k = true) : (setA l k v).length = l.length := by
  induction l with
  | nil => simp [hasKey, lookupA] at h
  | cons hd tl ih =>
    obtain ⟨k', v'⟩ := hd
    by_cases hk : k' = k
    · simp [setA, hk]
    · simp only [setA, if_neg hk, List.length_cons]
      exact congrArg Nat.succ (ih (by simpa [hasKey, lookupA, hk] using h))

theorem lookupA_exists_of_hasKey {α : Type} {l : Store α} {k : String}
    (h : hasKey l k = true) : ∃ v, lookupA l k = some v :=
  Option.isSome_iff_exists.mp h

/-- A non-empty result of `findClientId` names the first phone match and
is a key of the store. -/
theorem findClientId_spec {clients : Store Client} {phone cif : String}
    (h : findClientId clients phone = cif) (hne : cif ≠ "") :
    ∃ c, clients.find? (fun p => p.2.phone == phone) = some (cif, c) ∧
      hasKey clients cif = true := by
  unfold findClientId at h
  cases hf : clients.find? (fun p => p.2.phone == phone) with
  | none => rw [hf] at h; exact absurd h.symm hne
  | some pr =>
    rw [hf] at h
    obtain ⟨k, c⟩ := pr
    have hk : k = cif := h
    subst hk
    exact ⟨c, rfl, hasKey_of_mem (List.mem_of_find?_eq_some hf)⟩

/-! ## Helper lemmas about slot generation -/

theorem slotTimesGo_irrel (endT : Nat) :
    ∀ f1 f2 cur, endT - cur ≤ f1 → endT - cur ≤ f2 →
      slotTimesGo f1 cur endT = slotTimesGo f2 cur endT := by
  intro f1
  induction f1 with
  | zero =>
    intro f2 cur h1 _
    have hlt : ¬ cur < endT := by omega
    cases f2 with
    | zero => rfl
    | succ m => simp [slotTimesGo, hlt]
  | succ n ih =>
    intro f2 cur h1 h2
    cases f2 with
    | zero =>
      have hlt : ¬ cur < endT := by omega
      simp [slotTimesGo, hlt]
    | succ m =>
      simp only [slotTimesGo]
      by_cases hlt : cur < endT
      · simp only [if_pos hlt, List.cons.injEq, true_and]
        exact ih m (cur + 30) (by omega) (by omega)
      · simp [hlt]

/-- `slotTimes` satisfies exactly the source loop's recurrence: the fuel
bound never cuts the iteration short. -/
theorem slotTimes_eq (cur endT : Nat) :
    slotTimes cur endT =
      if cur < endT then cur :: slotTimes (cur + 30) endT else [] := by
  unfold slotTimes
  cases hD : endT - cur with
  | zero =>
    have hlt : ¬ cur < endT := by omega
    simp [slotTimesGo, hlt]
  | succ n =>
    have hlt : cur < endT := by omega
    simp only [slotTimesGo, if_pos hlt, List.cons.injEq, true_and]
    exact slotTimesGo_irrel endT n (endT - (cur + 30)) (cur + 30)
      (by omega) (Nat.le_refl _)

theorem mem_slotTimesGo {endT : Nat} :
    ∀ fuel cur t, t ∈ slotTimesGo fuel cur endT → cur ≤ t ∧ t < endT := by
  intro fuel
  induction fuel with
  | zero => intro cur t hmem; cases hmem
  | succ n ih =>
    intro cur t hmem
    simp only [slotTimesGo] at hmem
    split at hmem
    case isTrue h =>
      rcases List.mem_cons.mp hmem with rfl | hmem'
      · exact ⟨Nat.le_refl _, h⟩
      · have := ih (cur + 30) t hmem'
        omega
    case isFalse h => cases hmem

theorem mem_slotTimes' {cur endT t : Nat} (h : t ∈ slotTimes cur endT) :
    cur ≤ t ∧ t < endT :=
  mem_slotTimesGo (endT - cur) cur t h

theorem mem_slotsForStaff {appointments : Store Appointment} {date sid : String}
    {m : StaffMember} {s : Slot}
    (h : s ∈ slotsForStaff appointments date sid m) :
    s.staff_id = sid ∧ s.staff_name = m.name ∧
      m.hoursStart ≤ s.time ∧ s.time < m.hoursEnd ∧
      slotFree (staffAptsFor appointments sid date) s.time = true := by
  unfold slotsForStaff at h
  obtain ⟨t, ht, rfl⟩ := List.mem_map.mp h
  obtain ⟨htt, hfree⟩ := List.mem_filter.mp ht
  obtain ⟨h1, h2⟩ := mem_slotTimes' htt
  exact ⟨rfl, rfl, h1, h2, hfree⟩

theorem mem_genSlots {appointments : Store Appointment} {date : String} :
    ∀ {l : Store StaffMember} {s : Slot}, s ∈ genSlots appointments date l →
      ∃ p ∈ l, s ∈ slotsForStaff appointments date p.1 p.2 := by
  intro l
  induction l with
  | nil => intro s h; cases h
  | cons hd tl ih =>
    intro s h
    obtain ⟨sid, m⟩ := hd
    rcases List.mem_append.mp h with h1 | h2
    · exact ⟨(sid, m), List.mem_cons_self _ _, h1⟩
    · obtain ⟨p, hp, hps⟩ := ih h2
      exact ⟨p, List.mem_cons_of_mem _ hp, hps⟩

/-! ## Helper lemmas about the booking orchestrator -/

/-- Successful booking, first-time caller: the new client is persisted and
then has its counters bumped; the appointment is inserted with no
availability check — the `appointments` store is arbitrary. -/
theorem book_success_newclient
    (clients : Store Client) (services : Store Service)
    (staff : Store StaffMember) (appointments : Store Appointment)
    (req : BookingRequest) (now : String) (sid : String) (svc : Service)
    (hsvc : findService services req.service_name = some (sid, svc))
    (hcif : findClientId clients req.client_phone = "")
    (hne : resolveStaffId staff svc.category req.staff_id ≠ "")
    (hk : hasKey staff (resolveStaffId staff svc.category req.staff_id)
            = true) :
    ∃ st, lookupA staff (resolveStaffId staff svc.category req.staff_id)
            = some st ∧
      bookAppointment clients services staff appointments req now =
        (⟨true, some ("APT" ++ pad4 (appointments.length + 1)),
          "Appointment booked successfully for " ++ req.client_name,
          some ⟨"APT" ++ pad4 (appointments.length + 1), svc.name, req.date,
                req.time, st.name, svc.price, svc.duration_minutes,
                req.client_name, req.client_phone⟩⟩,
         setA clients ("CL" ++ pad4 (clients.length + 1))
           ⟨"CL" ++ pad4 (clients.length + 1), req.client_name,
            req.client_email, req.client_phone, "", "", "", "", now,
            0 + 1, 0 + svc.price⟩,
         setA appointments ("APT" ++ pad4 (appointments.length + 1))
           ⟨"APT" ++ pad4 (appointments.length + 1),
            "CL" ++ pad4 (clients.length + 1), req.client_name, sid, svc.name,
            resolveStaffId staff svc.category req.staff_id, st.name, req.date,
            req.time, svc.duration_minutes, svc.price, "scheduled",
            "Booked via voice AI", now, none⟩) := by
  obtain ⟨st, hst⟩ := lookupA_exists_of_hasKey hk
  refine ⟨st, hst, ?_⟩
  simp only [bookAppointment, hsvc, hcif, lookupA_setA_self, hst, setA_setA,
    newClient, hk, Bool.not_true, Bool.or_false, if_pos]
  simp [hne]

/-- Successful booking, returning caller: no new client; the matched
client's counters are bumped; the appointment is inserted regardless of
the `appointments` store. -/
theorem book_success_oldclient
    (clients : Store Client) (services : Store Service)
    (staff : Store StaffMember) (appointments : Store Appointment)
    (req : BookingRequest) (now : String) (sid : String) (svc : Service)
    (cif : String) (c : Client)
    (hsvc : findService services req.service_name = some (sid, svc))
    (hcif : findClientId clients req.client_phone = cif)
    (hcifne : cif ≠ "")
    (hlk : lookupA clients cif = some c)
    (hne : resolveStaffId staff svc.category req.staff_id ≠ "")
    (hk : hasKey staff (resolveStaffId staff svc.category req.staff_id)
            = true) :
    ∃ st, lookupA staff (resolveStaffId staff svc.category req.staff_id)
            = some st ∧
      bookAppointment clients services staff appointments req now =
        (⟨true, some ("APT" ++ pad4 (appointments.length + 1)),
          "Appointment booked successfully for " ++ req.client_name,
          some ⟨"APT" ++ pad4 (appointments.length + 1), svc.name, req.date,
                req.time, st.name, svc.price, svc.duration_minutes,
                req.client_name, req.client_phone⟩⟩,
         setA clients cif
           { c with total_visits := c.total_visits + 1,
                    total_spent := c.total_spent + svc.price },
         setA appointments ("APT" ++ pad4 (appointments.length + 1))
           ⟨"APT" ++ pad4 (appointments.length + 1), cif, c.name, sid,
            svc.name, resolveStaffId staff svc.category req.staff_id, st.name,
            req.date, req.time, svc.duration_minutes, svc.price, "scheduled",
            "Booked via voice AI", now, none⟩) := by
  obtain ⟨st, hst⟩ := lookupA_exists_of_hasKey hk
  refine ⟨st, hst, ?_⟩
  simp only [bookAppointment, hsvc, hcif, if_neg hcifne, hlk, hst, hk,
    Bool.not_true, Bool.or_false]
  simp [hne]

/-- Failed staff resolution: the response is the no-staff failure, the
appointments store is untouched, and the clients store keeps the client
created and saved before the staff step (the mid-function persistence). -/
theorem book_staff_fail
    (clients : Store Client) (services : Store Service)
    (staff : Store StaffMember) (appointments : Store Appointment)
    (req : BookingRequest) (now : String) (sid : String) (svc : Service)
    (hsvc : findService services req.service_name = some (sid, svc))
    (hfail : resolveStaffId staff svc.category req.staff_id = "" ∨
      hasKey staff (resolveStaffId staff svc.category req.staff_id) = false) :
    bookAppointment clients services staff appointments req now =
      (⟨false, none, "No staff available for this service", none⟩,
       if findClientId clients req.client_phone = "" then
         setA clients ("CL" ++ pad4 (clients.length + 1))
           (newClient ("CL" ++ pad4 (clients.length + 1)) req now)
       else clients,
       appointments) := by
  simp only [bookAppointment, hsvc]
  rcases hfail with hf | hf <;>
    by_cases hc : findClientId clients req.client_phone = "" <;>
      simp [hf, hc]

theorem of_slotFree {sa : List Appointment} {t : Nat} {apt : Appointment}
    (h : slotFree sa t = true) (hmem : apt ∈ sa) :
    ¬(apt.time ≤ t ∧ t < apt.time + apt.duration_minutes) := by
  have h2 := (List.all_eq_true.mp h) apt hmem
  simp only [Bool.not_eq_true', decide_eq_false_iff_not] at h2
  exact h2

/-! ## Claim theorems -/

/-- C3: for every date, staff roster and appointment set, every slot
returned by the availability computation satisfies
`hours.start ≤ time < hours.end` for the contributing staff member, and
that staff member's `available_days` contains the weekday of the date
(the returned `day_of_week`). -/
theorem c3_slots_within_hours
    (staff : Store StaffMember) (appointments : Store Appointment)
    (date : String) (r : AvailabilityResult)
    (h : checkAvailability staff appointments date = .ok r) :
    ∀ s ∈ r.available_slots, ∃ p ∈ staff, p.1 = s.staff_id ∧
      p.2.hoursStart ≤ s.time ∧ s.time < p.2.hoursEnd ∧
      p.2.available_days.contains r.day_of_week = true := by
  cases hp : parseDate date with
  | none => simp [checkAvailability, hp] at h
  | some d =>
    simp only [checkAvailability, hp, Except.ok.injEq] at h
    subst h
    intro s hs
    simp only at hs
    obtain ⟨p, hpmem, hpslot⟩ := mem_genSlots (List.mem_of_mem_take hs)
    obtain ⟨hpm, hday⟩ := List.mem_filter.mp hpmem
    obtain ⟨hid, _, h1, h2, _⟩ := mem_slotsForStaff hpslot
    exact ⟨p, hpm, hid.symm, h1, h2, hday⟩

/-- C3 witness: the first returned slot of a concrete run lies within its
staff member's hours on a working day. -/
theorem c3_witness :
    ∃ p ∈ seedStaff,
      p.1 = (Slot.mk 540 "STF001" "Dr. Maria Rodriguez").staff_id ∧
      p.2.hoursStart ≤ (Slot.mk 540 "STF001" "Dr. Maria Rodriguez").time ∧
      (Slot.mk 540 "STF001" "Dr. Maria Rodriguez").time < p.2.hoursEnd ∧
      p.2.available_days.contains c3r.day_of_week = true :=
  c3_slots_within_hours seedStaff demoApts "2026-10-13" c3r rfl
    ⟨540, "STF001", "Dr. Maria Rodriguez"⟩ (by decide)

/-- C4: for every date, staff roster and appointment set, no returned
slot's start instant lies within `[apt.time, apt.time + duration)` of any
appointment of the same staff member on the same date with status
`scheduled`. -/
theorem c4_no_slot_inside_booked_interval
    (staff : Store StaffMember) (appointments : Store Appointment)
    (date : String) (r : AvailabilityResult)
    (h : checkAvailability staff appointments date = .ok r) :
    ∀ s ∈ r.available_slots, ∀ ka ∈ appointments,
      ka.2.staff_id = s.staff_id → ka.2.date = date →
      ka.2.status = "scheduled" →
      ¬(ka.2.time ≤ s.time ∧ s.time < ka.2.time + ka.2.duration_minutes) := by
  cases hp : parseDate date with
  | none => simp [checkAvailability, hp] at h
  | some d =>
    simp only [checkAvailability, hp, Except.ok.injEq] at h
    subst h
    intro s hs ka hka heq hdate hstat
    simp only at hs
    obtain ⟨p, hpmem, hpslot⟩ := mem_genSlots (List.mem_of_mem_take hs)
    obtain ⟨hid, _, _, _, hfree⟩ := mem_slotsForStaff hpslot
    apply of_slotFree hfree
    unfold staffAptsFor valuesS
    apply List.mem_filter.mpr
    refine ⟨List.mem_map_of_mem Prod.snd hka, ?_⟩
    simp [heq, hid, hdate, hstat]

/-- C4 witness: the 11:00 slot of a concrete run does not start inside the
10:00 appointment's [10:00, 11:00) interval. -/
theorem c4_witness :
    ¬(c2Apt.time ≤ (Slot.mk 660 "STF002" "Sarah Johnson").time ∧
      (Slot.mk 660 "STF002" "Sarah Johnson").time <
        c2Apt.time + c2Apt.duration_minutes) :=
  c4_no_slot_inside_booked_interval [("STF002", stf002)] demoApts
    "2026-10-13" c4r rfl ⟨660, "STF002", "Sarah Johnson"⟩ (by decide)
    ("APT0001", c2Apt) (by decide) rfl rfl rfl

/-- C1 counterexample: starting from the seeded catalog and an empty
appointments store, two bookings through `POST /book` — Hydrafacial at
10:00 and again at 10:30 on the same Tuesday — both succeed, and the
resulting store holds two scheduled appointments for the same staff member
and date whose [time, time+duration) intervals overlap.  The claimed
reachable-state invariant and the claimed booking-time overlap guarantee
are both false. -/
theorem c1_counterexample :
    c1Run1.1.success = true ∧ c1Run2.1.success = true ∧
    ∃ a ∈ valuesS c1Run2.2.2, ∃ b ∈ valuesS c1Run2.2.2,
      a.id ≠ b.id ∧ a.staff_id = b.staff_id ∧ a.date = b.date ∧
      a.status = "scheduled" ∧ b.status = "scheduled" ∧
      a.time < b.time + b.duration_minutes ∧
      b.time < a.time + a.duration_minutes := by
  decide

/-- C1 amended: the booking path performs no overlap or availability
check at all.  Whenever the service name resolves and staff resolution
yields an existing staff id, `POST /book` succeeds and inserts a new
appointment with status `scheduled` at the requested time and date — for
every appointments store, including stores already holding a conflicting
scheduled appointment for the same staff member.  Only the availability
computation (C4) excludes occupied start instants. -/
theorem c1_booking_never_checks_overlap
    (clients : Store Client) (services : Store Service)
    (staff : Store StaffMember) (appointments : Store Appointment)
    (req : BookingRequest) (now : String) (sid : String) (svc : Service)
    (hsvc : findService services req.service_name = some (sid, svc))
    (hne : resolveStaffId staff svc.category req.staff_id ≠ "")
    (hk : hasKey staff (resolveStaffId staff svc.category req.staff_id)
            = true) :
    (bookAppointment clients services staff appointments req now).1.success
        = true ∧
    ∃ apt : Appointment,
      (bookAppointment clients services staff appointments req now).2.2 =
        setA appointments ("APT" ++ pad4 (appointments.length + 1)) apt ∧
      apt.staff_id = resolveStaffId staff svc.category req.staff_id ∧
      apt.date = req.date ∧ apt.time = req.time ∧
      apt.duration_minutes = svc.duration_minutes ∧
      apt.status = "scheduled" := by
  by_cases hcif : findClientId clients req.client_phone = ""
  · obtain ⟨st, _, heq⟩ :=
      book_success_newclient clients services staff appointments req now
        sid svc hsvc hcif hne hk
    rw [heq]
    exact ⟨rfl, _, rfl, rfl, rfl, rfl, rfl, rfl⟩
  · obtain ⟨c, _, hkey⟩ := findClientId_spec rfl hcif
    obtain ⟨v, hlk⟩ := lookupA_exists_of_hasKey hkey
    obtain ⟨st, _, heq⟩ :=
      book_success_oldclient clients services staff appointments req now
        sid svc (findClientId clients req.client_phone) v hsvc rfl hcif hlk
        hne hk
    rw [heq]
    exact ⟨rfl, _, rfl, rfl, rfl, rfl, rfl, rfl⟩

/-- C1 amended witness: booking 10:30 on a store already holding the
10:00–11:00 appointment for the auto-selected staff member succeeds and
inserts the conflicting scheduled appointment. -/
theorem c1_amended_witness :
    (bookAppointment [] seedServices seedStaff demoApts
        ⟨"Hydrafacial", "2026-10-13", 630, "Bea", "555-0002", "", none⟩
        "t2").1.success = true ∧
    ∃ apt : Appointment,
      (bookAppointment [] seedServices seedStaff demoApts
          ⟨"Hydrafacial", "2026-10-13", 630, "Bea", "555-0002", "", none⟩
          "t2").2.2 =
        setA demoApts ("APT" ++ pad4 (demoApts.length + 1)) apt ∧
      apt.staff_id =
        resolveStaffId seedStaff
          (Service.mk "SVC003" "Hydrafacial" "Facials" 60 250
            "Deep cleansing and hydration facial treatment").category
          none ∧
      apt.date = "2026-10-13" ∧ apt.time = 630 ∧
      apt.duration_minutes = 60 ∧ apt.status = "scheduled" :=
  c1_booking_never_checks_overlap [] seedServices seedStaff demoApts
    ⟨"Hydrafacial", "2026-10-13", 630, "Bea", "555-0002", "", none⟩ "t2"
    "SVC003"
    ⟨"SVC003", "Hydrafacial", "Facials", 60, 250,
     "Deep cleansing and hydration facial treatment"⟩
    (by decide) (by decide) (by decide)

/-- C2 counterexample: in the §8 scenario (STF002 on Tuesday 2026-10-13
with one scheduled 10:00 appointment of 60 minutes), the 10:30 slot is NOT
returned: its start instant 10:30 lies within the appointment's
[10:00, 11:00) interval, so the claimed inclusion of 10:30 is false. -/
theorem c2_counterexample : ¬ ∃ s ∈ c2Slots, s.time = 630 := by
  decide

/-- C2 amended: in that scenario the computation excludes both the 10:00
and the 10:30 slot (both start instants lie within [10:00, 11:00)),
includes the 11:00 slot, and returns no slot before 10:00 or at/after
18:00; 2026-10-13 parses to a Tuesday, on which STF002 works. -/
theorem c2_amended :
    (∀ s ∈ c2Slots, s.time ≠ 600 ∧ s.time ≠ 630) ∧
    (∃ s ∈ c2Slots, s.time = 660) ∧
    (∀ s ∈ c2Slots, 600 ≤ s.time ∧ s.time < 1080) ∧
    parseDate "2026-10-13" = some (2026, 10, 13) ∧
    dayName (2026, 10, 13) = "Tuesday" ∧
    stf002.available_days.contains "Tuesday" = true := by
  decide

/-- C5: for every appointment collection, id and status argument, an
absent id yields the not-found result and an unrecognized status (on a
present id) yields the invalid-status result; in both failure cases the
returned store is exactly the input store, so the prior status and the
rest of the collection are unchanged. -/
theorem c5_status_update_failures
    (appointments : Store Appointment)
    (appointment_id status notes now : String) :
    (lookupA appointments appointment_id = none →
      updateAppointmentStatus appointments appointment_id status notes now =
        ("Error: Appointment " ++ appointment_id ++ " not found",
         appointments)) ∧
    ((lookupA appointments appointment_id).isSome = true →
      validStatuses.contains status = false →
      updateAppointmentStatus appointments appointment_id status notes now =
        ("Error: Invalid status. Must be one of: scheduled, completed, cancelled, no-show",
         appointments)) := by
  constructor
  · intro h
    simp [updateAppointmentStatus, h]
  · intro h1 h2
    obtain ⟨apt, hlk⟩ := Option.isSome_iff_exists.mp h1
    simp only [updateAppointmentStatus, hlk]
    rw [h2]
    simp

/-- C5 witness: both failure modes at concrete inputs leave the store
unchanged. -/
theorem c5_witness :
    updateAppointmentStatus demoApts "APT9999" "completed" "" "t" =
      ("Error: Appointment APT9999 not found", demoApts) ∧
    updateAppointmentStatus demoApts "APT0001" "done" "" "t" =
      ("Error: Invalid status. Must be one of: scheduled, completed, cancelled, no-show",
       demoApts) :=
  ⟨(c5_status_update_failures demoApts "APT9999" "completed" "" "t").1
      (by decide),
   (c5_status_update_failures demoApts "APT0001" "done" "" "t").2
      (by decide) (by decide)⟩

/-- C6 counterexample: on an invalid date the HTTP availability endpoint
does not surface a structured "no slots" result — it raises
`HTTPException(400)` (the `.error` side of the embedding), so no `.ok`
result exists.  The non-raising half of the claim fails on the HTTP
front end. -/
theorem c6_counterexample :
    checkAvailability seedStaff [] "2024-02-30" =
      .error ⟨400, "Invalid date format. Use YYYY-MM-DD"⟩ ∧
    ¬ ∃ r, checkAvailability seedStaff [] "2024-02-30" = .ok r := by
  refine ⟨rfl, ?_⟩
  rintro ⟨r, hr⟩
  exact Except.noConfusion hr

/-- C6 amended: every date string rejected by the `"%Y-%m-%d"` parse makes
both availability front ends fail with the InvalidDate error; the agent
tool surfaces it non-fatally as a structured error-message result, while
the HTTP endpoint fails by raising `HTTPException(400)` rather than
returning a no-slots result. -/
theorem c6_invalid_date
    (staff : Store StaffMember) (appointments : Store Appointment)
    (date : String) (sf : Option String)
    (h : parseDate date = none) :
    checkAvailability staff appointments date =
      .error ⟨400, "Invalid date format. Use YYYY-MM-DD"⟩ ∧
    mcpCheckAvailability appointments staff date sf =
      "Error: Invalid date format. Use YYYY-MM-DD" := by
  constructor
  · simp [checkAvailability, h]
  · simp [mcpCheckAvailability, h]

/-- C6 witness: a non-date string triggers both InvalidDate failures. -/
theorem c6_witness :
    checkAvailability seedStaff [] "not-a-date" =
      .error ⟨400, "Invalid date format. Use YYYY-MM-DD"⟩ ∧
    mcpCheckAvailability [] seedStaff "not-a-date" none =
      "Error: Invalid date format. Use YYYY-MM-DD" :=
  c6_invalid_date seedStaff [] "not-a-date" none (by decide)

/-- C7: a booking request whose service name has no case-insensitive
substring match in the catalog returns `success = false` with no
appointment id, and both the clients and appointments stores are returned
exactly as given — nothing is persisted and, the body being total, no
exception reaches the caller. -/
theorem c7_unknown_service
    (clients : Store Client) (services : Store Service)
    (staff : Store StaffMember) (appointments : Store Appointment)
    (req : BookingRequest) (now : String)
    (h : findService services req.service_name = none) :
    bookAppointment clients services staff appointments req now =
      (⟨false, none, "Service '" ++ req.service_name ++ "' not found", none⟩,
       clients, appointments) := by
  simp [bookAppointment, h]

/-- C7 witness: "Massage" is not in the catalog; the stores come back
unchanged. -/
theorem c7_witness :
    bookAppointment demoClients seedServices seedStaff demoApts
        ⟨"Massage", "2026-10-13", 600, "Ana", "555-0001", "", none⟩ "t" =
      (⟨false, none, "Service 'Massage' not found", none⟩,
       demoClients, demoApts) :=
  c7_unknown_service demoClients seedServices seedStaff demoApts
    ⟨"Massage", "2026-10-13", 600, "Ana", "555-0001", "", none⟩ "t"
    (by decide)

/-- C8: on a successful booking, a phone number matching no existing
client yields exactly one appended client record — created with zero
counters (then bumped once by the post-booking stats update, to
`0 + 1` visits and `0 + price` spent) under the next sequential ID — while
a phone number matching an existing client adds no record and bumps that
client's `total_visits` by 1 and `total_spent` by the resolved service's
price. -/
theorem c8_client_create_or_reuse
    (clients : Store Client) (services : Store Service)
    (staff : Store StaffMember) (appointments : Store Appointment)
    (req : BookingRequest) (now : String) (sid : String) (svc : Service)
    (hsvc : findService services req.service_name = some (sid, svc))
    (hne : resolveStaffId staff svc.category req.staff_id ≠ "")
    (hk : hasKey staff (resolveStaffId staff svc.category req.staff_id)
            = true) :
    (findClientId clients req.client_phone = "" →
      hasKey clients ("CL" ++ pad4 (clients.length + 1)) = false →
      (bookAppointment clients services staff appointments req now).1.success
          = true ∧
      (bookAppointment clients services staff appointments req now).2.1 =
        clients ++ [("CL" ++ pad4 (clients.length + 1),
          ⟨"CL" ++ pad4 (clients.length + 1), req.client_name,
           req.client_email, req.client_phone, "", "", "", "", now,
           0 + 1, 0 + svc.price⟩)]) ∧
    (∀ cif c,
      clients.find? (fun p => p.2.phone == req.client_phone)
          = some (cif, c) →
      cif ≠ "" → (clients.map Prod.fst).Nodup →
      (bookAppointment clients services staff appointments req now).1.success
          = true ∧
      (bookAppointment clients services staff appointments req now).2.1 =
        setA clients cif
          { c with total_visits := c.total_visits + 1,
                   total_spent := c.total_spent + svc.price } ∧
      ((bookAppointment clients services staff appointments req now).2.1).length
          = clients.length) := by
  constructor
  · intro hcif hfresh
    obtain ⟨st, _, heq⟩ :=
      book_success_newclient clients services staff appointments req now
        sid svc hsvc hcif hne hk
    rw [heq]
    exact ⟨rfl, setA_fresh clients _ _ hfresh⟩
  · intro cif c hfind hcifne hnd
    have hcif : findClientId clients req.client_phone = cif := by
      unfold findClientId
      rw [hfind]
    have hmem := List.mem_of_find?_eq_some hfind
    have hlk := lookupA_eq_of_mem_nodup hnd hmem
    obtain ⟨st, _, heq⟩ :=
      book_success_oldclient clients services staff appointments req now
        sid svc cif c hsvc hcif hcifne hlk hne hk
    rw [heq]
    exact ⟨rfl, rfl,
      setA_length_of_hasKey clients cif _ (hasKey_of_mem hmem)⟩

/-- C8 witness: a fresh phone number appends exactly the one new client
(counters 1 and 250 after the bump from zero); re-booking the known phone
number keeps the store at one client, with counters 2+1 and 500+250. -/
theorem c8_witness :
    ((bookAppointment [] seedServices seedStaff []
        ⟨"Hydrafacial", "2026-10-13", 600, "Ana", "555-0001", "", none⟩
        "t1").1.success = true ∧
     (bookAppointment [] seedServices seedStaff []
        ⟨"Hydrafacial", "2026-10-13", 600, "Ana", "555-0001", "", none⟩
        "t1").2.1 =
       [("CL0001", ⟨"CL0001", "Ana", "", "555-0001", "", "", "", "", "t1",
           1, 250⟩)]) ∧
    ((bookAppointment demoClients seedServices seedStaff []
        ⟨"Hydrafacial", "2026-10-13", 600, "Ana Diaz", "555-0001", "", none⟩
        "t1").1.success = true ∧
     (bookAppointment demoClients seedServices seedStaff []
        ⟨"Hydrafacial", "2026-10-13", 600, "Ana Diaz", "555-0001", "", none⟩
        "t1").2.1 =
       setA demoClients "CL0001"
         ⟨"CL0001", "Ana Diaz", "ana@example.com", "555-0001", "", "", "",
          "", "t0", 3, 750⟩ ∧
     ((bookAppointment demoClients seedServices seedStaff []
        ⟨"Hydrafacial", "2026-10-13", 600, "Ana Diaz", "555-0001", "", none⟩
        "t1").2.1).length = demoClients.length) :=
  ⟨(c8_client_create_or_reuse [] seedServices seedStaff []
      ⟨"Hydrafacial", "2026-10-13", 600, "Ana", "555-0001", "", none⟩ "t1"
      "SVC003"
      ⟨"SVC003", "Hydrafacial", "Facials", 60, 250,
       "Deep cleansing and hydration facial treatment"⟩
      (by decide) (by decide) (by decide)).1 (by decide) (by decide),
   (c8_client_create_or_reuse demoClients seedServices seedStaff []
      ⟨"Hydrafacial", "2026-10-13", 600, "Ana Diaz", "555-0001", "", none⟩
      "t1" "SVC003"
      ⟨"SVC003", "Hydrafacial", "Facials", 60, 250,
       "Deep cleansing and hydration facial treatment"⟩
      (by decide) (by decide) (by decide)).2 "CL0001" demoClient
      (by decide) (by decide) (by decide)⟩

/-- C9 counterexample: booking Hydrafacial (category "Facials") with an
explicitly supplied `staff_id` of STF001 succeeds even though STF001's
specialties do not contain "Facials" — the created appointment violates
the claimed specialty invariant, because an explicit staff id is checked
only for existence. -/
theorem c9_counterexample :
    c9Run.1.success = true ∧
    (∃ a ∈ valuesS c9Run.2.2, a.staff_id = "STF001" ∧
      a.service_id = "SVC003" ∧ a.status = "scheduled") ∧
    (lookupA seedServices "SVC003").map Service.category = some "Facials" ∧
    (lookupA seedStaff "STF001").map
        (fun m => m.specialties.contains "Facials") = some false := by
  decide

/-- C9 amended: when `staff_id` is not supplied, the first staff member in
collection iteration order whose specialties contain the service's
category is selected (so auto-selected staff always satisfy the specialty
invariant), and the booking fails with the no-staff result when none
match; an explicitly supplied staff id is validated only for existence —
the booking fails when it is unknown but succeeds without any specialty
check when it exists. -/
theorem c9_staff_resolution
    (clients : Store Client) (services : Store Service)
    (staff : Store StaffMember) (appointments : Store Appointment)
    (req : BookingRequest) (now : String) (sid : String) (svc : Service)
    (hsvc : findService services req.service_name = some (sid, svc)) :
    (∀ pr, req.staff_id = none →
      staff.find? (fun p => p.2.specialties.contains svc.category)
          = some pr →
      pr.1 ≠ "" →
      (bookAppointment clients services staff appointments req now).1.success
          = true ∧
      pr.2.specialties.contains svc.category = true ∧
      ∃ apt : Appointment,
        (bookAppointment clients services staff appointments req now).2.2 =
          setA appointments ("APT" ++ pad4 (appointments.length + 1)) apt ∧
        apt.staff_id = pr.1 ∧ apt.status = "scheduled") ∧
    (req.staff_id = none →
      staff.find? (fun p => p.2.specialties.contains svc.category) = none →
      (bookAppointment clients services staff appointments req now).1 =
        ⟨false, none, "No staff available for this service", none⟩ ∧
      (bookAppointment clients services staff appointments req now).2.2 =
        appointments) ∧
    (∀ s, req.staff_id = some s → s ≠ "" → hasKey staff s = false →
      (bookAppointment clients services staff appointments req now).1 =
        ⟨false, none, "No staff available for this service", none⟩ ∧
      (bookAppointment clients services staff appointments req now).2.2 =
        appointments) := by
  refine ⟨?_, ?_, ?_⟩
  · intro pr hnone hfind hprne
    have hres : resolveStaffId staff svc.category req.staff_id = pr.1 := by
      unfold resolveStaffId
      rw [hnone, hfind]
      rfl
    have hkey : hasKey staff pr.1 = true :=
      hasKey_of_mem (List.mem_of_find?_eq_some hfind)
    have hprop0 := List.find?_some hfind
    have hprop : pr.2.specialties.contains svc.category = true := hprop0
    have hne : resolveStaffId staff svc.category req.staff_id ≠ "" := by
      rw [hres]; exact hprne
    have hk :
        hasKey staff (resolveStaffId staff svc.category req.staff_id)
          = true := by rw [hres]; exact hkey
    by_cases hcif : findClientId clients req.client_phone = ""
    · obtain ⟨st, _, heq⟩ :=
        book_success_newclient clients services staff appointments req now
          sid svc hsvc hcif hne hk
      rw [heq]
      exact ⟨rfl, hprop, _, rfl, hres, rfl⟩
    · obtain ⟨c, _, hkeyc⟩ := findClientId_spec rfl hcif
      obtain ⟨v, hlk⟩ := lookupA_exists_of_hasKey hkeyc
      obtain ⟨st, _, heq⟩ :=
        book_success_oldclient clients services staff appointments req now
          sid svc (findClientId clients req.client_phone) v hsvc rfl hcif
          hlk hne hk
      rw [heq]
      exact ⟨rfl, hprop, _, rfl, hres, rfl⟩
  · intro hnone hfind
    have hres : resolveStaffId staff svc.category req.staff_id = "" := by
      unfold resolveStaffId
      rw [hnone, hfind]
      rfl
    rw [book_staff_fail clients services staff appointments req now sid svc
      hsvc (Or.inl hres)]
    exact ⟨rfl, rfl⟩
  · intro s hsome hsne hkey
    have hres : resolveStaffId staff svc.category req.staff_id = s := by
      unfold resolveStaffId
      rw [hsome]
      simp [hsne]
    rw [book_staff_fail clients services staff appointments req now sid svc
      hsvc (Or.inr (by rw [hres]; exact hkey))]
    exact ⟨rfl, rfl⟩

/-- C9 witness: auto-selection picks STF002 (first Facials specialist) and
creates a scheduled appointment for it; a roster without a Facials
specialist fails; an unknown explicit staff id fails. -/
theorem c9_witness :
    ((bookAppointment [] seedServices seedStaff []
        ⟨"Hydrafacial", "2026-10-13", 600, "Ana", "555-0001", "", none⟩
        "t1").1.success = true ∧
     stf002.specialties.contains "Facials" = true ∧
     ∃ apt : Appointment,
       (bookAppointment [] seedServices seedStaff []
          ⟨"Hydrafacial", "2026-10-13", 600, "Ana", "555-0001", "", none⟩
          "t1").2.2 =
         setA [] ("APT" ++ pad4 (List.length ([] : Store Appointment) + 1))
           apt ∧
       apt.staff_id = "STF002" ∧ apt.status = "scheduled") ∧
    ((bookAppointment [] seedServices [("STF001", stf001)] demoApts
        ⟨"Hydrafacial", "2026-10-13", 600, "Ana", "555-0001", "", none⟩
        "t1").1 =
       ⟨false, none, "No staff available for this service", none⟩ ∧
     (bookAppointment [] seedServices [("STF001", stf001)] demoApts
        ⟨"Hydrafacial", "2026-10-13", 600, "Ana", "555-0001", "", none⟩
        "t1").2.2 = demoApts) ∧
    ((bookAppointment [] seedServices seedStaff demoApts
        ⟨"Hydrafacial", "2026-10-13", 600, "Ana", "555-0001", "",
         some "STF999"⟩ "t1").1 =
       ⟨false, none, "No staff available for this service", none⟩ ∧
     (bookAppointment [] seedServices seedStaff demoApts
        ⟨"Hydrafacial", "2026-10-13", 600, "Ana", "555-0001", "",
         some "STF999"⟩ "t1").2.2 = demoApts) :=
  ⟨(c9_staff_resolution [] seedServices seedStaff []
      ⟨"Hydrafacial", "2026-10-13", 600, "Ana", "555-0001", "", none⟩ "t1"
      "SVC003"
      ⟨"SVC003", "Hydrafacial", "Facials", 60, 250,
       "Deep cleansing and hydration facial treatment"⟩
      (by decide)).1 ("STF002", stf002) rfl (by decide) (by decide),
   (c9_staff_resolution [] seedServices [("STF001", stf001)] demoApts
      ⟨"Hydrafacial", "2026-10-13", 600, "Ana", "555-0001", "", none⟩ "t1"
      "SVC003"
      ⟨"SVC003", "Hydrafacial", "Facials", 60, 250,
       "Deep cleansing and hydration facial treatment"⟩
      (by decide)).2.1 rfl (by decide),
   (c9_staff_resolution [] seedServices seedStaff demoApts
      ⟨"Hydrafacial", "2026-10-13", 600, "Ana", "555-0001", "",
       some "STF999"⟩ "t1" "SVC003"
      ⟨"SVC003", "Hydrafacial", "Facials", 60, 250,
       "Deep cleansing and hydration facial treatment"⟩
      (by decide)).2.2 "STF999" rfl (by decide) (by decide)⟩

/-- C10: when the service resolves, the phone number is new, and staff
resolution then fails, the booking returns `success = false` with the
appointments store untouched — but the freshly created zero-counter
client record has already been persisted to the clients store: the
failure path is not atomic with respect to client creation. -/
theorem c10_client_persisted_on_staff_failure
    (clients : Store Client) (services : Store Service)
    (staff : Store StaffMember) (appointments : Store Appointment)
    (req : BookingRequest) (now : String) (sid : String) (svc : Service)
    (hsvc : findService services req.service_name = some (sid, svc))
    (hcif : findClientId clients req.client_phone = "")
    (hfresh : hasKey clients ("CL" ++ pad4 (clients.length + 1)) = false)
    (hfail : resolveStaffId staff svc.category req.staff_id = "" ∨
      hasKey staff (resolveStaffId staff svc.category req.staff_id)
        = false) :
    bookAppointment clients services staff appointments req now =
      (⟨false, none, "No staff available for this service", none⟩,
       clients ++ [("CL" ++ pad4 (clients.length + 1),
         newClient ("CL" ++ pad4 (clients.length + 1)) req now)],
       appointments) := by
  rw [book_staff_fail clients services staff appointments req now sid svc
    hsvc hfail]
  rw [if_pos hcif, setA_fresh clients _ _ hfresh]

/-- C10 witness: an unknown explicit staff id fails the booking, yet the
new caller's zero-counter client record is persisted; the appointments
store is unchanged. -/
theorem c10_witness :
    bookAppointment [] seedServices seedStaff demoApts
        ⟨"Hydrafacial", "2026-10-13", 600, "Ana", "555-0001", "",
         some "STF999"⟩ "t1" =
      (⟨false, none, "No staff available for this service", none⟩,
       [("CL0001",
         ⟨"CL0001", "Ana", "", "555-0001", "", "", "", "", "t1", 0, 0⟩)],
       demoApts) :=
  c10_client_persisted_on_staff_failure [] seedServices seedStaff demoApts
    ⟨"Hydrafacial", "2026-10-13", 600, "Ana", "555-0001", "", some "STF999"⟩
    "t1" "SVC003"
    ⟨"SVC003", "Hydrafacial", "Facials", 60, 250,
     "Deep cleansing and hydration facial treatment"⟩
    (by decide) (by decide) (by decide) (Or.inr (by decide))

end MedSpa
